import Mathlib

/-!
Verification development for the PathCollab utility scripts:

  * `bench/scripts/compare_baseline.py` — benchmark-baseline comparator
  * `bench/scripts/generate_report.py`  — markdown report generator
  * `scripts/generate_fixtures.py`      — deep-zoom fixture generator

The Python code is shallowly embedded below.  JSON documents are modelled
by the `Json` inductive; Python dictionaries carrying metrics become
insertion-ordered association lists with Python `dict` update semantics;
Python floats are modelled as exact rationals (the specification states the
percentage-change computation is exact, which is the real-arithmetic
reading of the code).  Fallible file access is modelled by `FileContent`
and the `LoadResult` type; an uncaught Python exception makes the process
exit with code 1, which the `main` models reflect.
-/

namespace PathCollab

/-- JSON values, as produced by `json.load`.  Object fields keep insertion
order, as Python dictionaries do. -/
inductive Json where
  | null
  | bool (b : Bool)
  | num (q : ℚ)
  | str (s : String)
  | arr (elems : List Json)
  | obj (fields : List (String × Json))

/-- A top-level JSON document, assumed to be an object (every document the
scripts read or write is one). -/
abbrev JsonDoc := List (String × Json)

/-- Python dictionary holding extracted metrics (`Dict[str, float]`). -/
abbrev MetricDict := List (String × ℚ)

/-- Python `d[k] = v` on an insertion-ordered dictionary: replace in place
when the key exists, append otherwise. -/
def dictSet (d : MetricDict) (k : String) (v : ℚ) : MetricDict :=
  if d.any (fun p => p.1 == k) then
    d.map (fun p => if p.1 == k then (k, v) else p)
  else
    d ++ [(k, v)]

/-- Python `d.update(l)`: assign every binding of `l` into `d` in order. -/
def dictUpdate (d : MetricDict) (l : MetricDict) : MetricDict :=
  l.foldl (fun acc p => dictSet acc p.1 p.2) d

/-- Python `d.get(k, default)` on a metric dictionary. -/
def dictGetD (d : MetricDict) (k : String) (default : ℚ) : ℚ :=
  match List.lookup k d with
  | some v => v
  | none => default

/-- Key uniqueness invariant of a Python dictionary model. -/
def KeysNodup (d : MetricDict) : Prop :=
  (d.map Prod.fst).Nodup

/-- Python `obj.get(k, default)` reading a numeric JSON field.  The source
declares all such fields as floats (`Dict[str, float]`, oha output), so a
present non-numeric value is outside the modelled domain and falls back to
the default. -/
def getNumD (fields : JsonDoc) (k : String) (default : ℚ) : ℚ :=
  match List.lookup k fields with
  | some (Json.num q) => q
  | _ => default

/-- Numeric fields of a JSON object, in order (`Dict[str, float]` reading
of a `metrics` sub-object). -/
def numFields (fields : JsonDoc) : MetricDict :=
  fields.filterMap (fun p =>
    match p.2 with
    | Json.num q => some (p.1, q)
    | _ => none)

/-- First stage of `extract_metrics`: the oha `summary` block
(`requests_per_sec`, `success_rate`). -/
def em_summary (data : JsonDoc) (metrics : MetricDict) : MetricDict :=
  match List.lookup "summary" data with
  | some (Json.obj summary) =>
      dictSet
        (dictSet metrics "requests_per_sec" (getNumD summary "requestsPerSec" 0))
        "success_rate" (getNumD summary "successRate" 1 * 100)
  | _ => metrics

/-- Second stage of `extract_metrics`: the oha `latencyPercentiles` block,
converted from seconds to milliseconds; `p999_ms` only when present. -/
def em_latency (data : JsonDoc) (metrics : MetricDict) : MetricDict :=
  match List.lookup "latencyPercentiles" data with
  | some (Json.obj lat) =>
      let m := dictSet metrics "p50_ms" (getNumD lat "p50" 0 * 1000)
      let m := dictSet m "p90_ms" (getNumD lat "p90" 0 * 1000)
      let m := dictSet m "p95_ms" (getNumD lat "p95" 0 * 1000)
      let m := dictSet m "p99_ms" (getNumD lat "p99" 0 * 1000)
      if (List.lookup "p999" lat).isSome then
        dictSet m "p999_ms" (getNumD lat "p999" 0 * 1000)
      else m
  | _ => metrics

/-- Third stage of `extract_metrics`: the alternative
`latencyDistribution.percentiles` block. -/
def em_latdist (data : JsonDoc) (metrics : MetricDict) : MetricDict :=
  match List.lookup "latencyDistribution" data with
  | some (Json.obj ld) =>
      match List.lookup "percentiles" ld with
      | some (Json.obj lat) =>
          dictSet
            (dictSet
              (dictSet
                (dictSet metrics "p50_ms" (getNumD lat "p50" 0 * 1000))
                "p90_ms" (getNumD lat "p90" 0 * 1000))
              "p95_ms" (getNumD lat "p95" 0 * 1000))
            "p99_ms" (getNumD lat "p99" 0 * 1000)
      | _ => metrics
  | _ => metrics

/-- Fourth stage of `extract_metrics`: the custom baseline format — when a
`metrics` key exists its (float-valued) fields are merged in. -/
def em_custom (data : JsonDoc) (metrics : MetricDict) : MetricDict :=
  match List.lookup "metrics" data with
  | some (Json.obj fs) => dictUpdate metrics (numFields fs)
  | _ => metrics

/-- Embedding of `extract_metrics` from `compare_baseline.py`: the four
`if` blocks of the source applied in order, starting from an empty
dictionary. -/
def extract_metrics (data : JsonDoc) : MetricDict :=
  em_custom data (em_latdist data (em_latency data (em_summary data [])))

/-- Serialisation of a metric dictionary back into JSON object fields, as
`json.dump` would write the `metrics` entry of a baseline. -/
def metricsToJson (m : MetricDict) : JsonDoc :=
  m.map (fun p => (p.1, Json.num p.2))

/-- Embedding of `create_baseline`: the baseline document built from a
results document.  `created_at` stands for `datetime.utcnow().isoformat()`,
an external input. -/
def create_baseline (results : JsonDoc) (description : String)
    (created_at : String) : JsonDoc :=
  [("created_at", Json.str (created_at ++ "Z")),
   ("description", Json.str description),
   ("metrics", Json.obj (metricsToJson (extract_metrics results))),
   ("raw_data", Json.obj results)]

/-- Percentage change of a metric, as `compare_metrics` computes it: the
Python value `float('inf')` (reached exactly when the baseline is zero and
the current value is not) is the `inf` constructor. -/
inductive ChangePct where
  | fin (q : ℚ)
  | inf
deriving DecidableEq

/-- Source lines 117–120: zero baseline gives 0 or infinite change,
otherwise `(curr - base) / base * 100`. -/
def changePct (curr_val base_val : ℚ) : ChangePct :=
  if base_val = 0 then
    (if curr_val = 0 then ChangePct.fin 0 else ChangePct.inf)
  else
    ChangePct.fin ((curr_val - base_val) / base_val * 100)

/-- Comparison `change_pct > t` on the extended value (`inf` exceeds every
finite threshold, as in Python float arithmetic). -/
def cGt (c : ChangePct) (t : ℚ) : Bool :=
  match c with
  | ChangePct.fin q => decide (t < q)
  | ChangePct.inf => true

/-- Comparison `change_pct < t` on the extended value (`inf` is below no
finite threshold). -/
def cLt (c : ChangePct) (t : ℚ) : Bool :=
  match c with
  | ChangePct.fin q => decide (q < t)
  | ChangePct.inf => false

/-- Test `abs(change_pct) < 5` (false for the infinite change). -/
def cAbsLt5 (c : ChangePct) : Bool :=
  match c with
  | ChangePct.fin q => decide (|q| < 5)
  | ChangePct.inf => false

/-- Test `change_pct < 0` (false for the infinite change). -/
def cNeg (c : ChangePct) : Bool :=
  match c with
  | ChangePct.fin q => decide (q < 0)
  | ChangePct.inf => false

/-- Test `change_pct > 0` (true for the infinite change). -/
def cPos (c : ChangePct) : Bool :=
  match c with
  | ChangePct.fin q => decide (0 < q)
  | ChangePct.inf => true

/-- The set of metrics where lower is better (source line 109). -/
def lower_is_better : List String :=
  ["p50_ms", "p90_ms", "p95_ms", "p99_ms", "p999_ms"]

/-- The set of metrics where higher is better (source line 111). -/
def higher_is_better : List String :=
  ["requests_per_sec", "success_rate"]

/-- Source lines 122–127: a latency metric regresses when its change
exceeds the threshold, a throughput metric when its change is below the
negated threshold. -/
def isRegression (metric : String) (change : ChangePct) (threshold_pct : ℚ) : Bool :=
  if lower_is_better.contains metric then cGt change threshold_pct
  else if higher_is_better.contains metric then cLt change (-threshold_pct)
  else false

/-- Row status, as printed by `compare_metrics`. -/
inductive Status where
  | regressed
  | ok
  | improved
  | changed
deriving DecidableEq

/-- Source lines 147–164: status classification for one metric row. -/
def statusOf (metric : String) (change : ChangePct) (threshold_pct : ℚ) : Status :=
  if isRegression metric change threshold_pct then Status.regressed
  else if cAbsLt5 change then Status.ok
  else if lower_is_better.contains metric && cNeg change then Status.improved
  else if higher_is_better.contains metric && cPos change then Status.improved
  else Status.changed

/-- Banker's rounding to the nearest integer, ties to even — the rounding
used by Python's fixed-point float formatting. -/
def roundHalfEven (q : ℚ) : ℤ :=
  let f := ⌊q⌋
  let frac := q - (f : ℚ)
  if frac < 1/2 then f
  else if 1/2 < frac then f + 1
  else if f % 2 = 0 then f else f + 1

/-- Decimal digits of `m` left-padded with zeros to width `d`. -/
def padZeros (d : ℕ) (m : ℕ) : String :=
  let s := toString m
  String.mk (List.replicate (d - s.length) '0') ++ s

/-- Python `f"{q:.df}"`: fixed-point rendering with `d` decimal places. -/
def fmtQ (d : ℕ) (q : ℚ) : String :=
  let n := roundHalfEven (q * ((10 : ℚ) ^ d))
  let sign := if n < 0 then "-" else ""
  let m := n.natAbs
  if d = 0 then sign ++ toString m
  else sign ++ toString (m / 10 ^ d) ++ "." ++ padZeros d (m % 10 ^ d)

/-- Source lines 140–145: the rendered change column — `"N/A"` for the
infinite change, otherwise a signed percentage with one decimal. -/
def render_change (c : ChangePct) : String :=
  match c with
  | ChangePct.inf => "N/A"
  | ChangePct.fin q => (if 0 < q then "+" else "") ++ fmtQ 1 q ++ "%"

/-- Source lines 129–138: the rendered value columns. -/
def value_str (metric : String) (v : ℚ) : String :=
  if metric.endsWith "_ms" then fmtQ 1 v ++ "ms"
  else if metric == "success_rate" then fmtQ 1 v ++ "%"
  else fmtQ 1 v

/-- One row of the comparison table: the per-metric values the loop body of
`compare_metrics` computes (both rendered outputs are line-joins of these
rows). -/
structure MetricRow where
  name : String
  base_str : String
  curr_str : String
  change : ChangePct
  change_str : String
  status : Status
deriving DecidableEq

/-- Loop body of `compare_metrics` for one metric of the key union; absent
metrics default to 0 on either side (`current.get(metric, 0)`). -/
def compareRow (current baseline : MetricDict) (threshold_pct : ℚ)
    (metric : String) : MetricRow :=
  let curr_val := dictGetD current metric 0
  let base_val := dictGetD baseline metric 0
  let change := changePct curr_val base_val
  { name := metric
    base_str := value_str metric base_val
    curr_str := value_str metric curr_val
    change := change
    change_str := render_change change
    status := statusOf metric change threshold_pct }

/-- Lexicographic comparison of strings by Unicode code point, matching
Python's `sorted` on `str`. -/
def lexLe : List Char → List Char → Bool
  | [], _ => true
  | _ :: _, [] => false
  | a :: as, b :: bs =>
      if a.toNat < b.toNat then true
      else if b.toNat < a.toNat then false
      else lexLe as bs

/-- String order used by `sorted`. -/
def strLe (a b : String) : Bool :=
  lexLe a.toList b.toList

/-- Insert a string into an already sorted list. -/
def insertSorted (s : String) : List String → List String
  | [] => [s]
  | t :: ts => if strLe s t then s :: t :: ts else t :: insertSorted s ts

/-- Insertion sort of strings (model of Python `sorted`). -/
def sortStrings (l : List String) : List String :=
  l.foldr insertSorted []

/-- Source line 113: `sorted(set(current.keys()) | set(baseline.keys()))`. -/
def sortedUnionKeys (current baseline : MetricDict) : List String :=
  sortStrings ((current.map Prod.fst ++ baseline.map Prod.fst).dedup)

/-- Embedding of `compare_metrics`: the aggregate `passed` flag — initially
true and set to false exactly when an iterated metric is `p99_ms` with a
regression (source lines 148–152) — together with the list of rows the
loop produces. -/
def compare_metrics (current baseline : MetricDict) (threshold_pct : ℚ) :
    Bool × List MetricRow :=
  let keys := sortedUnionKeys current baseline
  (!(keys.any (fun m =>
      m == "p99_ms" &&
      isRegression m
        (changePct (dictGetD current m 0) (dictGetD baseline m 0))
        threshold_pct)),
   keys.map (compareRow current baseline threshold_pct))

/-- Content of a file on disk: absent, present but not valid JSON, or
present with a parsed JSON document. -/
inductive FileContent where
  | absent
  | malformed (raw : String)
  | valid (doc : JsonDoc)

/-- Result of `load_json` (`compare_baseline.py`): returns the document or
raises (`FileNotFoundError` on an absent file, `json.JSONDecodeError` on
malformed contents, both uncaught there). -/
inductive LoadResult where
  | ok (doc : JsonDoc)
  | err

/-- Embedding of `load_json` from `compare_baseline.py`: no local error
handling, every failure propagates. -/
def load_json : FileContent → LoadResult
  | FileContent.valid doc => LoadResult.ok doc
  | _ => LoadResult.err

/-- Embedding of `load_json_safe` from `generate_report.py`: both a missing
file and malformed JSON are caught and collapsed to `None`. -/
def load_json_safe : FileContent → Option JsonDoc
  | FileContent.valid doc => some doc
  | _ => none

/-- Parsed command line of `compare_baseline.py`. -/
structure Args where
  current : Option String
  baseline : Option String
  threshold : ℚ
  save_baseline : Option String
  output : Option String
  description : String
  markdown : Bool
  ci : Bool

/-- A directory of files, mapping paths to contents; paths not listed are
absent. -/
def lookupFile (fs : List (String × FileContent)) (path : String) : FileContent :=
  match List.lookup path fs with
  | some c => c
  | none => FileContent.absent

/-- Python `path.exists()`. -/
def fileExists (fs : List (String × FileContent)) (path : String) : Bool :=
  match lookupFile fs path with
  | FileContent.absent => false
  | _ => true

/-- Exit code of `compare_baseline.py`'s `main` (source lines 241–309).
Save mode: missing `--output` exits 1, a missing or malformed input makes
`load_json` raise (process exit 1), success exits 0.  Comparison mode:
missing `--current`/`--baseline` arguments exit 1 after printing help; a
missing current file exits 1; a missing baseline file warns and exits 0; a
load failure raises (exit 1); otherwise the exit code reports the `passed`
flag of `compare_metrics`. -/
def main_exit (args : Args) (fs : List (String × FileContent)) : ℕ :=
  match args.save_baseline with
  | some sbPath =>
      match args.output with
      | none => 1
      | some _ =>
          match load_json (lookupFile fs sbPath) with
          | LoadResult.err => 1
          | LoadResult.ok _ => 0
  | none =>
      match args.current, args.baseline with
      | some c, some b =>
          if !fileExists fs c then 1
          else if !fileExists fs b then 0
          else
            match load_json (lookupFile fs c), load_json (lookupFile fs b) with
            | LoadResult.ok cd, LoadResult.ok bd =>
                if (compare_metrics (extract_metrics cd) (extract_metrics bd)
                      args.threshold).1 then 0 else 1
            | _, _ => 1
      | _, _ => 1

/-! ### Fixture generator (`scripts/generate_fixtures.py`) -/

/-- Python `math.ceil(a / b)` for natural inputs. -/
def ceilDiv (a b : ℕ) : ℕ :=
  (a + b - 1) / b

/-- Source line 63: `math.ceil(math.log2(max(size, size) / tile_size))`.
For positive arguments this is the least `k ≥ 0` with
`size ≤ tile_size * 2 ^ k`, i.e. `Nat.clog 2` of the ceiling quotient. -/
def maxLevel (size tile_size : ℕ) : ℕ :=
  Nat.clog 2 (ceilDiv size tile_size)

/-- Number of pyramid levels: `max_level + 1` (levels `0 .. max_level`). -/
def numLevels (size tile_size : ℕ) : ℕ :=
  maxLevel size tile_size + 1

/-- Source lines 112–114: dimension of a level,
`math.ceil(size / 2 ** (max_level - level))`. -/
def levelDim (size tile_size level : ℕ) : ℕ :=
  ceilDiv size (2 ^ (maxLevel size tile_size - level))

/-- Source lines 117–118: tiles per axis at a level,
`math.ceil(level_dimension / tile_size)`. -/
def tilesPerAxis (size tile_size level : ℕ) : ℕ :=
  ceilDiv (levelDim size tile_size level) tile_size

/-- Data written to one output file: text, a JSON document, or a PPM
bitmap (its ASCII header and raw pixel bytes). -/
inductive FileData where
  | text (s : String)
  | jsonData (j : Json)
  | ppm (header : String) (body : List ℕ)

/-- Embedding of `create_ppm_image`: the `P6` header line and the
row-major RGB byte stream. -/
def create_ppm_image (width height : ℕ) (get_pixel : ℕ → ℕ → ℕ × ℕ × ℕ) :
    String × List ℕ :=
  ("P6\n" ++ toString width ++ " " ++ toString height ++ "\n255\n",
   (List.range height).flatMap (fun y =>
     (List.range width).flatMap (fun x =>
       let p := get_pixel x y
       [p.1, p.2.1, p.2.2])))

/-- Color palette of the demo slide (source lines 140–145). -/
def slide_palette : List (ℕ × ℕ × ℕ) :=
  [(240, 240, 240), (200, 220, 240), (220, 240, 200), (240, 220, 200)]

/-- Per-pixel color of a slide tile (source lines 129–153): a 128-pixel
grid of four alternating pastel cells with gray grid lines, computed from
global base-image coordinates. -/
def slide_get_pixel (scale tile_x_start tile_y_start x y : ℕ) : ℕ × ℕ × ℕ :=
  let gx := (tile_x_start + x) * scale
  let gy := (tile_y_start + y) * scale
  let grid_size := 128
  let cell_x := (gx / grid_size) % 4
  let cell_y := (gy / grid_size) % 4
  let base := slide_palette.getD ((cell_x + cell_y) % 4) (0, 0, 0)
  if gx % grid_size < 2 || gy % grid_size < 2 then (180, 180, 180) else base

/-- Per-pixel color of an overlay tile (source lines 233–253): concentric
class regions around the slide center.  The source compares
`math.sqrt(dx * dx + dy * dy) < slide_size * c`; both sides being
non-negative, this is the squared comparison used here. -/
def overlay_get_pixel (slide_size scale tile_x_start tile_y_start x y : ℕ) :
    ℕ × ℕ × ℕ :=
  let gx : ℤ := (((tile_x_start + x) * scale : ℕ) : ℤ)
  let gy : ℤ := (((tile_y_start + y) * scale : ℕ) : ℤ)
  let center_x : ℤ := ((slide_size / 2 : ℕ) : ℤ)
  let center_y : ℤ := ((slide_size / 2 : ℕ) : ℤ)
  let dx := gx - center_x
  let dy := gy - center_y
  let dist2 : ℚ := ((dx * dx + dy * dy : ℤ) : ℚ)
  let s : ℚ := (slide_size : ℚ)
  if dist2 < (s * (15 / 100)) ^ 2 then (239, 68, 68)
  else if dist2 < (s * (25 / 100)) ^ 2 then (59, 130, 246)
  else if dist2 < (s * (35 / 100)) ^ 2 then (245, 158, 11)
  else if dist2 < (s * (40 / 100)) ^ 2 then (107, 114, 128)
  else (0, 0, 0)

/-- The XML descriptor written to `slide.dzi` (source lines 80–86). -/
def dzi_content (size tile_size : ℕ) : String :=
  "<?xml version=\"1.0\" encoding=\"UTF-8\"?>\n" ++
  "<Image xmlns=\"http://schemas.microsoft.com/deepzoom/2008\" " ++
  "Format=\"jpeg\" Overlap=\"0\" TileSize=\"" ++ toString tile_size ++ "\">\n" ++
  "  <Size Width=\"" ++ toString size ++ "\" Height=\"" ++ toString size ++ "\"/>\n" ++
  "</Image>\n"

/-- The JSON metadata sidecar of the demo slide (source lines 91–99). -/
def slide_metadata (size tile_size : ℕ) : Json :=
  Json.obj
    [("slide_id", Json.str "demo-slide"),
     ("name", Json.str "Demo Slide"),
     ("width", Json.num size),
     ("height", Json.num size),
     ("tile_size", Json.num tile_size),
     ("num_levels", Json.num (numLevels size tile_size)),
     ("format", Json.str "jpeg")]

/-- The JSON manifest of the demo overlay (source lines 181–198). -/
def overlay_manifest (slide_size tile_size : ℕ) : Json :=
  Json.obj
    [("id", Json.str "demo-overlay"),
     ("slide_id", Json.str "demo-slide"),
     ("name", Json.str "Demo Tissue Segmentation"),
     ("width", Json.num slide_size),
     ("height", Json.num slide_size),
     ("tile_size", Json.num tile_size),
     ("levels", Json.num (numLevels slide_size tile_size)),
     ("format", Json.str "png"),
     ("classes", Json.arr
       [Json.obj [("id", Json.num 0), ("name", Json.str "Background"),
                  ("color", Json.str "#000000"), ("opacity", Json.num 0)],
        Json.obj [("id", Json.num 1), ("name", Json.str "Tumor"),
                  ("color", Json.str "#EF4444"), ("opacity", Json.num (7/10))],
        Json.obj [("id", Json.num 2), ("name", Json.str "Stroma"),
                  ("color", Json.str "#F59E0B"), ("opacity", Json.num (7/10))],
        Json.obj [("id", Json.num 3), ("name", Json.str "Necrosis"),
                  ("color", Json.str "#6B7280"), ("opacity", Json.num (7/10))],
        Json.obj [("id", Json.num 4), ("name", Json.str "Lymphocytes"),
                  ("color", Json.str "#3B82F6"), ("opacity", Json.num (7/10))]]),
     ("version", Json.str "1.0")]

/-- Tile files of the demo slide pyramid (source lines 107–160); paths are
relative to the output directory.  The base image is square, so
`level_height = level_width` and `tiles_y = tiles_x` as in the source. -/
def slide_tiles (size tile_size : ℕ) : List (String × FileData) :=
  let max_level := maxLevel size tile_size
  (List.range (max_level + 1)).flatMap (fun level =>
    let scale := 2 ^ (max_level - level)
    let level_width := levelDim size tile_size level
    let level_height := levelDim size tile_size level
    let tiles_x := tilesPerAxis size tile_size level
    let tiles_y := tilesPerAxis size tile_size level
    (List.range tiles_y).flatMap (fun ty =>
      (List.range tiles_x).map (fun tx =>
        let tile_x_start := tx * tile_size
        let tile_y_start := ty * tile_size
        let tile_width := min tile_size (level_width - tile_x_start)
        let tile_height := min tile_size (level_height - tile_y_start)
        let pd := create_ppm_image tile_width tile_height
          (slide_get_pixel scale tile_x_start tile_y_start)
        ("tiles/" ++ toString level ++ "/" ++ toString tx ++ "_" ++
           toString ty ++ ".ppm",
         FileData.ppm pd.1 pd.2))))

/-- Tile files of the demo overlay pyramid (source lines 214–261). -/
def overlay_tiles (slide_size tile_size : ℕ) : List (String × FileData) :=
  let max_level := maxLevel slide_size tile_size
  (List.range (max_level + 1)).flatMap (fun level =>
    let scale := 2 ^ (max_level - level)
    let level_width := levelDim slide_size tile_size level
    let level_height := levelDim slide_size tile_size level
    let tiles_x := tilesPerAxis slide_size tile_size level
    let tiles_y := tilesPerAxis slide_size tile_size level
    (List.range tiles_y).flatMap (fun ty =>
      (List.range tiles_x).map (fun tx =>
        let tile_x_start := tx * tile_size
        let tile_y_start := ty * tile_size
        let tile_width := min tile_size (level_width - tile_x_start)
        let tile_height := min tile_size (level_height - tile_y_start)
        let pd := create_ppm_image tile_width tile_height
          (overlay_get_pixel slide_size scale tile_x_start tile_y_start)
        ("tiles/" ++ toString level ++ "/" ++ toString tx ++ "_" ++
           toString ty ++ ".ppm",
         FileData.ppm pd.1 pd.2))))

/-- Ambient process environment a Python script could consult: the clock
and a random source.  The fixture generator uses neither (it imports no
randomness and writes no timestamp), so it takes `Env` only to let the
determinism claim quantify over it. -/
structure Env where
  now : String
  rand : ℕ → ℕ

/-- Embedding of `generate_demo_slide`: every file it writes (path
relative to the output directory, and content).  The console `print`
calls are not part of the produced files. -/
def generate_demo_slide (env : Env) (size tile_size : ℕ) :
    List (String × FileData) :=
  ("slide.dzi", FileData.text (dzi_content size tile_size)) ::
  ("metadata.json", FileData.jsonData (slide_metadata size tile_size)) ::
  slide_tiles size tile_size

/-- Embedding of `generate_demo_overlay`: every file it writes. -/
def generate_demo_overlay (env : Env) (slide_size tile_size : ℕ) :
    List (String × FileData) :=
  ("manifest.json", FileData.jsonData (overlay_manifest slide_size tile_size)) ::
  overlay_tiles slide_size tile_size

/-! ### Report generator (`bench/scripts/generate_report.py`) -/

/-- Python truthiness of a loaded JSON object (`if tile_data:`): an empty
object behaves like a missing one. -/
def jsonTruthy : Option JsonDoc → Option JsonDoc
  | some [] => none
  | x => x

/-- Python truthiness of loaded text (`if ws_text:`): the empty string
behaves like a missing file. -/
def strTruthy : Option String → Option String
  | some "" => none
  | x => x

/-- Text after the first occurrence of `pat` in `s`, when `pat` occurs. -/
def afterFirst (s pat : String) : Option String :=
  match s.splitOn pat with
  | [] => none
  | [_] => none
  | _ :: rest => some (String.intercalate pat rest)

/-- Substring test (`pat in s` in Python). -/
def containsSub (s pat : String) : Bool :=
  (s.splitOn pat).length > 1

/-- Value of a decimal digit string. -/
def parseNat (s : String) : ℕ :=
  s.foldl (fun n c => n * 10 + (c.toNat - 48)) 0

/-- Model of `re.search(pat + r"\s*(\d+)", text)`: the digits after the
first occurrence of the literal `pat`. -/
def natAfter (s pat : String) : Option ℕ :=
  match afterFirst s pat with
  | none => none
  | some rest =>
      let digits := (rest.dropWhile Char.isWhitespace).takeWhile Char.isDigit
      if digits.isEmpty then none else some (parseNat digits)

/-- Model of `re.search(label + r".*P99:\s*([\d.]+\w+)", text)`: scans for
a line containing `label` followed by `P99:` and returns the number-unit
token after it (the source regex matches within one line since `.` does
not cross newlines). -/
def p99After (text label : String) : Option String :=
  (text.splitOn "\n").findSome? (fun line =>
    match afterFirst line label with
    | none => none
    | some rest =>
        match afterFirst rest "P99:" with
        | none => none
        | some r2 =>
            let v := r2.dropWhile Char.isWhitespace
            let numPart := v.takeWhile (fun c => c.isDigit || c == '.')
            let unitPart := (v.drop numPart.length).takeWhile
              (fun c => c.isAlphanum || c == '_')
            if numPart.isEmpty || unitPart.isEmpty then none
            else some (numPart ++ unitPart))

/-- Parsed WebSocket load-test output (`parse_websocket_output`). -/
structure WsData where
  passed : Bool
  messages_sent : ℕ
  messages_received : ℕ
  cursor_p99 : Option String
  viewport_p99 : Option String

/-- Embedding of `parse_websocket_output` (source lines 80–100). -/
def parse_websocket_output (text : String) : WsData :=
  { passed := containsSub text "PASS"
    messages_sent := (natAfter text "Messages sent:").getD 0
    messages_received := (natAfter text "Messages received:").getD 0
    cursor_p99 := p99After text "Cursor"
    viewport_p99 := p99After text "Viewport" }

/-- One parsed Criterion measurement (`parse_criterion_output`). -/
structure CriterionBench where
  name : String
  low_us : ℚ
  mid_us : ℚ
  high_us : ℚ

/-- Decimal literal `\d+\.?\d*` as a rational. -/
def parseDec (s : String) : Option ℚ :=
  let intPart := s.takeWhile Char.isDigit
  if intPart.isEmpty then none
  else
    let rest := s.drop intPart.length
    if rest.isEmpty then some (parseNat intPart)
    else if rest.startsWith "." then
      let frac := (rest.drop 1).takeWhile Char.isDigit
      if (rest.drop 1).length == frac.length then
        some ((parseNat intPart : ℚ) + (parseNat frac : ℚ) / ((10 : ℚ) ^ frac.length))
      else none
    else none

/-- Unit normalisation `to_us` of `parse_criterion_output`. -/
def to_us (val : ℚ) (unit : String) : ℚ :=
  if unit == "ns" then val / 1000
  else if unit == "µs" || unit == "us" then val
  else if unit == "ms" then val * 1000
  else if unit == "s" then val * 1000000
  else val

/-- Whitespace tokens of a text. -/
def tokensOf (s : String) : List String :=
  (s.split Char.isWhitespace).filter (fun t => !t.isEmpty)

/-- Token scan modelling the source regex
`(\S+)\s+time:\s+\[(num) (unit) (num) (unit) (num) (unit)\]`: a name token
followed by `time:` and a bracketed triple of measurements. -/
def scanCrit : List String → List CriterionBench
  | x :: t :: a :: au :: b :: bu :: c :: cu :: rest =>
      if t == "time:" && a.startsWith "[" && cu.endsWith "]" then
        match parseDec (a.drop 1), parseDec b, parseDec c with
        | some lo, some mid, some hi =>
            { name := x
              low_us := to_us lo au
              mid_us := to_us mid bu
              high_us := to_us hi (cu.dropRight 1) } :: scanCrit rest
        | _, _, _ => scanCrit (t :: a :: au :: b :: bu :: c :: cu :: rest)
      else scanCrit (t :: a :: au :: b :: bu :: c :: cu :: rest)
  | _ :: rest => scanCrit rest
  | [] => []

/-- Embedding of `parse_criterion_output` (source lines 42–77). -/
def parse_criterion_output (text : String) : List CriterionBench :=
  scanCrit (tokensOf text)

/-- Embedding of `format_duration` (source lines 103–112). -/
def format_duration (us : ℚ) : String :=
  if us < 1 then fmtQ 2 (us * 1000) ++ "ns"
  else if us < 1000 then fmtQ 2 us ++ "µs"
  else if us < 1000000 then fmtQ 2 (us / 1000) ++ "ms"
  else fmtQ 2 (us / 1000000) ++ "s"

/-- Python `str.title()`: uppercase every letter that follows a non-letter,
lowercase the rest. -/
def titleCase (s : String) : String :=
  let step := s.toList.foldl
    (fun (acc : List Char × Bool) c =>
      if c.isAlpha then
        ((if acc.2 then c.toLower else c.toUpper) :: acc.1, true)
      else (c :: acc.1, false))
    ([], false)
  String.mk step.1.reverse

/-- Python `str(value)` for a JSON value rendered in a markdown table.
Exact float formatting is outside the claims; numbers are shown as
integers or as exact fractions. -/
def pyStr : Json → String
  | Json.null => "None"
  | Json.bool b => if b then "True" else "False"
  | Json.num q => if q.den == 1 then toString q.num
                  else toString q.num ++ "/" ++ toString q.den
  | Json.str s => s
  | Json.arr _ => "[...]"
  | Json.obj _ => "dict"

/-- Insertion sort of object fields by key (`sorted(d.items())`; keys in a
dictionary are unique, so the value part never decides the order). -/
def insertPairSorted (p : String × Json) :
    List (String × Json) → List (String × Json)
  | [] => [p]
  | q :: qs => if strLe p.1 q.1 then p :: q :: qs else q :: insertPairSorted p qs

/-- Object fields sorted by key. -/
def sortPairs (l : List (String × Json)) : List (String × Json) :=
  l.foldr insertPairSorted []

/-- Python `obj.get(key, {})` for a JSON sub-object. -/
def getObjD (fields : JsonDoc) (k : String) : JsonDoc :=
  match List.lookup k fields with
  | some (Json.obj fs) => fs
  | _ => []

/-- Python `obj.get(key, default)` returning the raw JSON value. -/
def jGetD (fields : JsonDoc) (k : String) (default : Json) : Json :=
  match List.lookup k fields with
  | some v => v
  | _ => default

/-- The four well-known files `generate_report` reads from the input
directory. -/
structure ReportInputs where
  tile_stress : FileContent
  websocket_load : Option String
  micro_benchmarks : Option String
  server_metrics : FileContent

/-- Report header and table of contents (source lines 118–133). -/
def report_header (now dirName : String) : List String :=
  ["# PathCollab Benchmark Report", "",
   "**Generated:** " ++ now ++ " UTC",
   "**Run directory:** `" ++ dirName ++ "`", "",
   "## Table of Contents",
   "- [Summary](#summary)",
   "- [HTTP Tile Performance](#http-tile-performance)",
   "- [WebSocket Performance](#websocket-performance)",
   "- [Micro-benchmarks](#micro-benchmarks)",
   "- [Server Metrics](#server-metrics)", ""]

/-- Tile summary item and status (source lines 144–152). -/
def tileSummary (tile_data : Option JsonDoc) : List String × String :=
  match tile_data with
  | some td =>
      let rps := getNumD (getObjD td "summary") "requestsPerSec" 0
      let p99 := getNumD (getObjD td "latencyPercentiles") "p99" 0 * 1000
      let success := getNumD (getObjD td "summary") "successRate" 1 * 100
      (["- **Tile serving:** " ++ fmtQ 0 rps ++ " req/s, P99: " ++
          fmtQ 1 p99 ++ "ms, Success: " ++ fmtQ 1 success ++ "%"],
       if p99 < 100 then "✅ PASS" else "❌ FAIL (P99 > 100ms)")
  | none => (["- **Tile serving:** No data collected"], "⚠️ No data")

/-- WebSocket summary item and status (source lines 154–162). -/
def wsSummary (ws_text : Option String) : List String × String :=
  match ws_text with
  | some t =>
      let w := parse_websocket_output t
      if w.passed then
        (["- **WebSocket:** P99 cursor: " ++ w.cursor_p99.getD "N/A" ++
            ", P99 viewport: " ++ w.viewport_p99.getD "N/A"], "✅ PASS")
      else (["- **WebSocket:** Test failed"], "❌ FAIL")
  | none => (["- **WebSocket:** No data collected"], "⚠️ No data")

/-- Summary section (source lines 135–170). -/
def summary_section (inp : ReportInputs) : List String :=
  let tile_data := jsonTruthy (load_json_safe inp.tile_stress)
  let ws_text := strTruthy inp.websocket_load
  let ts := tileSummary tile_data
  let ws := wsSummary ws_text
  ["## Summary", "",
   "| Component | Status |", "|-----------|--------|",
   "| HTTP Tile Serving | " ++ ts.2 ++ " |",
   "| WebSocket Broadcasting | " ++ ws.2 ++ " |", ""]
  ++ ts.1 ++ ws.1 ++ [""]

/-- Python `str(x)` of an optional string field whose absent value is the
Python `None` object (the parsed dictionary always carries the key, so
`.get` never falls back to its `'N/A'` default). -/
def optStr (o : Option String) : String :=
  match o with
  | some s => s
  | none => "None"

/-- HTTP tile performance section (source lines 172–208). -/
def http_section (inp : ReportInputs) : List String :=
  ["## HTTP Tile Performance", ""] ++
  (match jsonTruthy (load_json_safe inp.tile_stress) with
   | some td =>
       let summary := getObjD td "summary"
       let latency := getObjD td "latencyPercentiles"
       ["### Throughput", "",
        "- **Requests/sec:** " ++ fmtQ 1 (getNumD summary "requestsPerSec" 0),
        "- **Total requests:** " ++ pyStr (jGetD summary "total" (Json.num 0)),
        "- **Success rate:** " ++ fmtQ 1 (getNumD summary "successRate" 1 * 100) ++ "%",
        "", "### Latency Distribution", "",
        "| Percentile | Latency |", "|------------|---------|"]
       ++ (["p50", "p75", "p90", "p95", "p99", "p999"].map (fun p =>
             "| " ++ p.toUpper ++ " | " ++ fmtQ 2 (getNumD latency p 0 * 1000) ++ "ms |"))
       ++ [""]
       ++ (let status_dist := getObjD td "statusCodeDistribution"
           if status_dist.isEmpty then []
           else
             ["### Status Codes", "", "| Code | Count |", "|------|-------|"]
             ++ (sortPairs status_dist).map (fun p =>
                  "| " ++ p.1 ++ " | " ++ pyStr p.2 ++ " |")
             ++ [""])
   | none => ["*No HTTP tile performance data available.*", ""])

/-- Raw-output excerpt of the WebSocket section (source lines 229–234):
the 1500 characters from `=== Load Test Results ===` when present,
otherwise the first 1500 characters. -/
def wsExcerpt (t : String) : String :=
  match afterFirst t "=== Load Test Results ===" with
  | some rest => ("=== Load Test Results ===" ++ rest).take 1500
  | none => t.take 1500

/-- WebSocket performance section (source lines 210–240). -/
def ws_section (inp : ReportInputs) : List String :=
  ["## WebSocket Performance", ""] ++
  (match strTruthy inp.websocket_load with
   | some t =>
       let w := parse_websocket_output t
       ["### Results", "",
        "- **Status:** " ++ (if w.passed then "PASS" else "FAIL"),
        "- **Messages sent:** " ++ toString w.messages_sent,
        "- **Messages received:** " ++ toString w.messages_received,
        "- **Cursor P99:** " ++ optStr w.cursor_p99,
        "- **Viewport P99:** " ++ optStr w.viewport_p99,
        "", "<details>", "<summary>Raw Output</summary>", "", "```",
        wsExcerpt t,
        "```", "</details>", ""]
   | none => ["*No WebSocket performance data available.*", ""])

/-- Group key of a Criterion benchmark: prefix before `/`. -/
def critGroup (b : CriterionBench) : String :=
  ((b.name.splitOn "/").headD "other")

/-- Grouping of benchmarks by prefix, groups sorted by name
(`sorted(groups.items())`), insertion order kept within a group. -/
def groupCrit (bs : List CriterionBench) : List (String × List CriterionBench) :=
  (sortStrings ((bs.map critGroup).dedup)).map (fun g =>
    (g, bs.filter (fun b => critGroup b == g)))

/-- Display name of a benchmark row: `'/'.join(parts[1:]) or name`. -/
def critDisplay (b : CriterionBench) : String :=
  let joined := String.intercalate "/" ((b.name.splitOn "/").tail)
  if joined.isEmpty then b.name else joined

/-- Micro-benchmark section (source lines 242–275). -/
def micro_section (inp : ReportInputs) : List String :=
  ["## Micro-benchmarks", ""] ++
  (match strTruthy inp.micro_benchmarks with
   | some t =>
       let benchmarks := parse_criterion_output t
       if benchmarks.isEmpty then ["*Could not parse benchmark results.*", ""]
       else
         (groupCrit benchmarks).flatMap (fun g =>
           ["### " ++ titleCase (g.1.replace "_" " "), "",
            "| Benchmark | Time (median) | Range |",
            "|-----------|---------------|-------|"]
           ++ g.2.map (fun b =>
                "| " ++ critDisplay b ++ " | " ++ format_duration b.mid_us ++
                " | " ++ format_duration b.low_us ++ " - " ++
                format_duration b.high_us ++ " |")
           ++ [""])
   | none => ["*No micro-benchmark data available.*", ""])

/-- Server metrics section (source lines 277–290). -/
def server_section (inp : ReportInputs) : List String :=
  ["## Server Metrics", ""] ++
  (match jsonTruthy (load_json_safe inp.server_metrics) with
   | some md =>
       ["| Metric | Value |", "|--------|-------|"]
       ++ (sortPairs md).map (fun p => "| " ++ p.1 ++ " | " ++ pyStr p.2 ++ " |")
       ++ [""]
   | none => ["*No server metrics available.*", ""])

/-- Report footer (source lines 292–295). -/
def report_footer : List String :=
  ["---", "", "*Report generated by `bench/scripts/generate_report.py`*"]

/-- Embedding of `generate_report`: the markdown lines of the whole
report.  `now` stands for `datetime.utcnow()` and `dirName` for
`input_dir.name`. -/
def generate_report (now dirName : String) (inp : ReportInputs) : List String :=
  report_header now dirName ++ summary_section inp ++ http_section inp ++
  ws_section inp ++ micro_section inp ++ server_section inp ++ report_footer

/-- Exit behaviour of `generate_report.py`'s `main` (source lines
300–330): a missing input directory exits 1 before any parsing, otherwise
the report is produced and the process exits 0. -/
def report_main (dir_exists : Bool) (now dirName : String)
    (inp : ReportInputs) : ℕ × Option (List String) :=
  if dir_exists then (0, some (generate_report now dirName inp))
  else (1, none)

/-! ### Dictionary lemmas -/

theorem any_key_eq_false (d : MetricDict) (k : String) :
    d.any (fun p => p.1 == k) = false ↔ k ∉ d.map Prod.fst := by
  induction d with
  | nil => simp
  | cons p d ih =>
      simp only [List.any_cons, Bool.or_eq_false_iff, ih, List.map_cons,
        List.mem_cons, beq_eq_false_iff_ne, ne_eq]
      constructor
      · rintro ⟨h1, h2⟩ (hk | hk)
        · exact h1 hk.symm
        · exact h2 hk
      · intro h
        exact ⟨fun he => h (Or.inl he.symm), fun hm => h (Or.inr hm)⟩

theorem dictSet_of_not_mem {d : MetricDict} {k : String} (v : ℚ)
    (h : k ∉ d.map Prod.fst) : dictSet d k v = d ++ [(k, v)] := by
  simp [dictSet, (any_key_eq_false d k).mpr h]

theorem keys_dictSet_of_mem {d : MetricDict} {k : String} (v : ℚ)
    (h : d.any (fun p => p.1 == k) = true) :
    (dictSet d k v).map Prod.fst = d.map Prod.fst := by
  simp only [dictSet, h, if_true, List.map_map]
  apply List.map_congr_left
  intro p _
  by_cases hp : p.1 = k
  · simp [Function.comp, hp]
  · simp [Function.comp, hp]

theorem keysNodup_dictSet {d : MetricDict} (k : String) (v : ℚ)
    (h : KeysNodup d) : KeysNodup (dictSet d k v) := by
  by_cases hk : d.any (fun p => p.1 == k) = true
  · unfold KeysNodup
    rw [keys_dictSet_of_mem v hk]
    exact h
  · have hk' : k ∉ d.map Prod.fst :=
      (any_key_eq_false d k).mp (Bool.eq_false_iff.mpr hk)
    rw [dictSet_of_not_mem v hk']
    unfold KeysNodup at *
    simp [List.nodup_append, h, hk']

theorem keysNodup_dictUpdate {d : MetricDict} (l : MetricDict)
    (h : KeysNodup d) : KeysNodup (dictUpdate d l) := by
  induction l generalizing d with
  | nil => exact h
  | cons p l ih => exact ih (keysNodup_dictSet p.1 p.2 h)

theorem dictUpdate_eq_append {m : MetricDict} :
    ∀ d : MetricDict, KeysNodup m →
      (∀ k ∈ m.map Prod.fst, k ∉ d.map Prod.fst) → dictUpdate d m = d ++ m := by
  induction m with
  | nil => intro d _ _; simp [dictUpdate]
  | cons p m ih =>
      intro d hnod hdis
      have hcons : p.1 ∉ m.map Prod.fst ∧ KeysNodup m := by
        unfold KeysNodup at hnod ⊢
        simpa [List.nodup_cons] using hnod
      have hp : p.1 ∉ d.map Prod.fst := hdis p.1 (by simp)
      have hstep : dictUpdate d (p :: m) = dictUpdate (d ++ [p]) m := by
        simp [dictUpdate, dictSet_of_not_mem p.2 hp]
      have hdis' : ∀ k ∈ m.map Prod.fst, k ∉ (d ++ [p]).map Prod.fst := by
        intro k hk hmem
        rcases (by simpa using hmem : k ∈ d.map Prod.fst ∨ k = p.1) with h | h
        · exact hdis k (by simp [hk]) h
        · exact hcons.1 (h ▸ hk)
      rw [hstep, ih (d ++ [p]) hcons.2 hdis']
      simp

theorem dictUpdate_nil {m : MetricDict} (h : KeysNodup m) :
    dictUpdate [] m = m := by
  rw [dictUpdate_eq_append [] h (by simp)]
  simp

/-! ### `extract_metrics` key uniqueness and the baseline round trip -/

theorem keysNodup_em_summary (data : JsonDoc) {m : MetricDict}
    (h : KeysNodup m) : KeysNodup (em_summary data m) := by
  unfold em_summary
  split
  · exact keysNodup_dictSet _ _ (keysNodup_dictSet _ _ h)
  · exact h

theorem keysNodup_em_latency (data : JsonDoc) {m : MetricDict}
    (h : KeysNodup m) : KeysNodup (em_latency data m) := by
  unfold em_latency
  split
  · split
    · exact keysNodup_dictSet _ _ (keysNodup_dictSet _ _ (keysNodup_dictSet _ _
        (keysNodup_dictSet _ _ (keysNodup_dictSet _ _ h))))
    · exact keysNodup_dictSet _ _ (keysNodup_dictSet _ _
        (keysNodup_dictSet _ _ (keysNodup_dictSet _ _ h)))
  · exact h

theorem keysNodup_em_latdist (data : JsonDoc) {m : MetricDict}
    (h : KeysNodup m) : KeysNodup (em_latdist data m) := by
  unfold em_latdist
  split
  · split
    · exact keysNodup_dictSet _ _ (keysNodup_dictSet _ _
        (keysNodup_dictSet _ _ (keysNodup_dictSet _ _ h)))
    · exact h
  · exact h

theorem keysNodup_em_custom (data : JsonDoc) {m : MetricDict}
    (h : KeysNodup m) : KeysNodup (em_custom data m) := by
  unfold em_custom
  split
  · exact keysNodup_dictUpdate _ h
  · exact h

theorem keysNodup_extract_metrics (data : JsonDoc) :
    KeysNodup (extract_metrics data) :=
  keysNodup_em_custom data (keysNodup_em_latdist data
    (keysNodup_em_latency data (keysNodup_em_summary data
      (by simp [KeysNodup]))))

theorem numFields_metricsToJson (m : MetricDict) :
    numFields (metricsToJson m) = m := by
  induction m with
  | nil => rfl
  | cons p m ih => simp [numFields, metricsToJson] at *; exact ih

/-- Claim C4 — Round-trip: building a baseline from a results document and
extracting metrics from the saved baseline document yields exactly the
metrics extracted directly from the original document.  The baseline
document carries none of the oha keys, so only its `metrics` entry
contributes, and updating the empty dictionary with a duplicate-free
metrics mapping reproduces it unchanged. -/
theorem C4_baseline_roundtrip (results : JsonDoc) (description created_at : String) :
    extract_metrics (create_baseline results description created_at) =
      extract_metrics results := by
  have h1 : extract_metrics (create_baseline results description created_at) =
      dictUpdate [] (numFields (metricsToJson (extract_metrics results))) := rfl
  rw [h1, numFields_metricsToJson, dictUpdate_nil (keysNodup_extract_metrics results)]

/-! ### Sorted key-union lemmas -/

theorem mem_insertSorted (a s : String) (l : List String) :
    a ∈ insertSorted s l ↔ a = s ∨ a ∈ l := by
  induction l with
  | nil => simp [insertSorted]
  | cons t ts ih =>
      simp only [insertSorted]
      split
      · simp
      · simp only [List.mem_cons, ih]
        tauto

theorem mem_sortStrings (a : String) (l : List String) :
    a ∈ sortStrings l ↔ a ∈ l := by
  induction l with
  | nil => simp [sortStrings]
  | cons t ts ih =>
      show a ∈ insertSorted t (sortStrings ts) ↔ _
      rw [mem_insertSorted]
      simp [ih]

theorem mem_sortedUnionKeys (m : String) (current baseline : MetricDict) :
    m ∈ sortedUnionKeys current baseline ↔
      m ∈ current.map Prod.fst ∨ m ∈ baseline.map Prod.fst := by
  unfold sortedUnionKeys
  rw [mem_sortStrings, List.mem_dedup, List.mem_append]

theorem lookup_some_mem_keys {d : MetricDict} {k : String} {v : ℚ}
    (h : List.lookup k d = some v) : k ∈ d.map Prod.fst := by
  induction d with
  | nil => simp [List.lookup] at h
  | cons p d ih =>
      rw [List.lookup] at h
      by_cases hk : k = p.1
      · simp [hk]
      · simp only [show (k == p.1) = false from beq_eq_false_iff_ne.mpr hk] at h
        simp [ih h]

theorem dictGetD_of_lookup_some {d : MetricDict} {k : String} {v : ℚ}
    (h : List.lookup k d = some v) : dictGetD d k 0 = v := by
  simp [dictGetD, h]

theorem dictGetD_of_lookup_none {d : MetricDict} {k : String}
    (h : List.lookup k d = none) : dictGetD d k 0 = 0 := by
  simp [dictGetD, h]

/-! ### Comparator lemmas -/

theorem statusOf_regressed (metric : String) (change : ChangePct) (t : ℚ) :
    statusOf metric change t = Status.regressed ↔
      isRegression metric change t = true := by
  unfold statusOf
  split_ifs <;> simp_all

theorem compare_passed_iff (current baseline : MetricDict) (threshold : ℚ) :
    (compare_metrics current baseline threshold).1 = false ↔
      ("p99_ms" ∈ sortedUnionKeys current baseline ∧
        cGt (changePct (dictGetD current "p99_ms" 0)
          (dictGetD baseline "p99_ms" 0)) threshold = true) := by
  show (!(sortedUnionKeys current baseline).any _) = false ↔ _
  rw [Bool.not_eq_false', List.any_eq_true]
  constructor
  · rintro ⟨m, hm, hf⟩
    rw [Bool.and_eq_true, beq_iff_eq] at hf
    rcases hf with ⟨he, hreg⟩
    subst he
    exact ⟨hm, hreg⟩
  · rintro ⟨hm, hgt⟩
    refine ⟨"p99_ms", hm, ?_⟩
    rw [Bool.and_eq_true, beq_iff_eq]
    exact ⟨rfl, hgt⟩

/-- Claim C1 — the aggregate `passed` flag of `compare_metrics` is false
exactly when `p99_ms` is among the compared metrics and its percentage
change exceeds the threshold (the infinite change counts as exceeding);
a regression in any other metric never flips the flag.  On the spec's
example — baseline 50, current 60, threshold 10 — the single row reports
change `+20.0%` with status REGRESSED, the comparison fails, and `main`
exits with code 1. -/
theorem C1_p99_gate :
    (∀ (current baseline : MetricDict) (threshold : ℚ),
      (compare_metrics current baseline threshold).1 = false ↔
        ("p99_ms" ∈ sortedUnionKeys current baseline ∧
          cGt (changePct (dictGetD current "p99_ms" 0)
            (dictGetD baseline "p99_ms" 0)) threshold = true)) ∧
    (compare_metrics [("p99_ms", 60)] [("p99_ms", 50)] 10).1 = false ∧
    (compare_metrics [("p99_ms", 60)] [("p99_ms", 50)] 10).2 =
      [compareRow [("p99_ms", 60)] [("p99_ms", 50)] 10 "p99_ms"] ∧
    (compareRow [("p99_ms", 60)] [("p99_ms", 50)] 10 "p99_ms").change =
      ChangePct.fin 20 ∧
    (compareRow [("p99_ms", 60)] [("p99_ms", 50)] 10 "p99_ms").change_str =
      "+20.0%" ∧
    (compareRow [("p99_ms", 60)] [("p99_ms", 50)] 10 "p99_ms").status =
      Status.regressed ∧
    main_exit
      { current := some "cur.json", baseline := some "base.json",
        threshold := 10, save_baseline := none, output := none,
        description := "", markdown := false, ci := false }
      [("cur.json", FileContent.valid [("metrics", Json.obj [("p99_ms", Json.num 60)])]),
       ("base.json", FileContent.valid [("metrics", Json.obj [("p99_ms", Json.num 50)])])]
      = 1 := by
  have hiff := compare_passed_iff
  have hc : changePct (60 : ℚ) 50 = ChangePct.fin 20 := by norm_num [changePct]
  have hgt : cGt (ChangePct.fin 20) 10 = true := by norm_num [cGt]
  have hpass : (compare_metrics [("p99_ms", 60)] [("p99_ms", 50)] 10).1 = false := by
    rw [hiff [("p99_ms", 60)] [("p99_ms", 50)] 10]
    refine ⟨by decide, ?_⟩
    show cGt (changePct (60 : ℚ) 50) 10 = true
    rw [hc]
    exact hgt
  refine ⟨hiff, hpass, rfl, ?_, ?_, ?_, ?_⟩
  · show changePct (60 : ℚ) 50 = ChangePct.fin 20
    exact hc
  · show render_change (changePct (60 : ℚ) 50) = "+20.0%"
    rw [hc]
    have h200 : roundHalfEven ((20 : ℚ) * (10 : ℚ) ^ (1 : ℕ)) = 200 := by
      norm_num [roundHalfEven]
    simp only [render_change, fmtQ, h200]
    norm_num
    rfl
  · show statusOf "p99_ms" (changePct (60 : ℚ) 50) 10 = Status.regressed
    rw [hc]
    have hreg : isRegression "p99_ms" (ChangePct.fin 20) 10 = true := by
      show cGt (ChangePct.fin 20) 10 = true
      exact hgt
    simp [statusOf, hreg]
  · have hm : main_exit
        { current := some "cur.json", baseline := some "base.json",
          threshold := 10, save_baseline := none, output := none,
          description := "", markdown := false, ci := false }
        [("cur.json", FileContent.valid [("metrics", Json.obj [("p99_ms", Json.num 60)])]),
         ("base.json", FileContent.valid [("metrics", Json.obj [("p99_ms", Json.num 50)])])] =
        (if (compare_metrics [("p99_ms", 60)] [("p99_ms", 50)] 10).1 then 0 else 1) := rfl
    rw [hm, hpass]
    rfl

/-- Claim C2 — per-metric change computation: the rows of
`compare_metrics` are exactly `compareRow` over the sorted key union, and
for every metric the computed change is exactly
`(current - baseline) / baseline * 100` when the baseline value is
nonzero, `0` when both are zero, and the infinite change rendered `"N/A"`
when only the baseline is zero. -/
theorem C2_change_formula (current baseline : MetricDict) (threshold : ℚ)
    (metric : String) :
    ((compare_metrics current baseline threshold).2 =
      (sortedUnionKeys current baseline).map (compareRow current baseline threshold)) ∧
    (dictGetD baseline metric 0 ≠ 0 →
      (compareRow current baseline threshold metric).change =
        ChangePct.fin ((dictGetD current metric 0 - dictGetD baseline metric 0) /
          dictGetD baseline metric 0 * 100)) ∧
    (dictGetD baseline metric 0 = 0 → dictGetD current metric 0 = 0 →
      (compareRow current baseline threshold metric).change = ChangePct.fin 0) ∧
    (dictGetD baseline metric 0 = 0 → dictGetD current metric 0 ≠ 0 →
      (compareRow current baseline threshold metric).change = ChangePct.inf ∧
      (compareRow current baseline threshold metric).change_str = "N/A") := by
  refine ⟨rfl, ?_, ?_, ?_⟩
  · intro hb
    simp [compareRow, changePct, hb]
  · intro hb hc
    simp [compareRow, changePct, hb, hc]
  · intro hb hc
    constructor
    · simp [compareRow, changePct, hb, hc]
    · simp [compareRow, changePct, hb, hc, render_change]

theorem C2_change_formula_witness :
    dictGetD [("p99_ms", (50 : ℚ))] "p99_ms" 0 ≠ 0 ∧
    (compareRow [("p99_ms", 60)] [("p99_ms", 50)] 10 "p99_ms").change =
      ChangePct.fin ((dictGetD [("p99_ms", (60 : ℚ))] "p99_ms" 0 -
        dictGetD [("p99_ms", (50 : ℚ))] "p99_ms" 0) /
        dictGetD [("p99_ms", (50 : ℚ))] "p99_ms" 0 * 100) := by
  have h : dictGetD [("p99_ms", (50 : ℚ))] "p99_ms" 0 ≠ 0 := by
    show (50 : ℚ) ≠ 0
    norm_num
  exact ⟨h, (C2_change_formula [("p99_ms", 60)] [("p99_ms", 50)] 10 "p99_ms").2.1 h⟩

/-- Claim C3 — direction-aware regression classification: every latency
metric (lower is better) shows status REGRESSED exactly when its change
exceeds the threshold, and every throughput/success metric (higher is
better) exactly when its change is below the negated threshold. -/
theorem C3_direction_rules (change : ChangePct) (threshold : ℚ) :
    (statusOf "p50_ms" change threshold = Status.regressed ↔
      cGt change threshold = true) ∧
    (statusOf "p90_ms" change threshold = Status.regressed ↔
      cGt change threshold = true) ∧
    (statusOf "p95_ms" change threshold = Status.regressed ↔
      cGt change threshold = true) ∧
    (statusOf "p99_ms" change threshold = Status.regressed ↔
      cGt change threshold = true) ∧
    (statusOf "p999_ms" change threshold = Status.regressed ↔
      cGt change threshold = true) ∧
    (statusOf "requests_per_sec" change threshold = Status.regressed ↔
      cLt change (-threshold) = true) ∧
    (statusOf "success_rate" change threshold = Status.regressed ↔
      cLt change (-threshold) = true) := by
  refine ⟨?_, ?_, ?_, ?_, ?_, ?_, ?_⟩ <;> rw [statusOf_regressed] <;> exact Iff.rfl

/-! ### Pyramid geometry -/

theorem ceilDiv_le_iff {s t n : ℕ} (ht : 0 < t) :
    ceilDiv s t ≤ n ↔ s ≤ t * n := by
  unfold ceilDiv
  rw [Nat.div_le_iff_le_mul_add_pred ht]
  omega

theorem maxLevel_1024_256 : maxLevel 1024 256 = 2 := by
  have h4 : ceilDiv 1024 256 = 4 := by norm_num [ceilDiv]
  unfold maxLevel
  rw [h4]
  have h1 : Nat.clog 2 4 ≤ 2 :=
    (Nat.le_pow_iff_clog_le (by norm_num)).mp (by norm_num)
  have h2 : 1 < Nat.clog 2 4 :=
    (Nat.pow_lt_iff_lt_clog (by norm_num)).mp (by norm_num)
  omega

/-- Claim C5 — pyramid geometry: the generator's maximum level is
`ceil(log2(size / tile_size))` — characterised as the least `k` with
`size ≤ tile_size * 2 ^ k` — so `size = 1024`, `tile_size = 256` yields
exactly 3 zoom levels (0, 1, 2) with level dimensions 256, 512 and 1024
and 1, 2 and 4 tiles per axis, matching
`ceil(level_dimension / tile_size)`. -/
theorem C5_pyramid_geometry :
    numLevels 1024 256 = 3 ∧
    (levelDim 1024 256 0 = 256 ∧ levelDim 1024 256 1 = 512 ∧
      levelDim 1024 256 2 = 1024) ∧
    (tilesPerAxis 1024 256 0 = 1 ∧ tilesPerAxis 1024 256 1 = 2 ∧
      tilesPerAxis 1024 256 2 = 4) ∧
    (∀ size tile_size : ℕ, 0 < tile_size →
      size ≤ tile_size * 2 ^ maxLevel size tile_size ∧
      (∀ k : ℕ, size ≤ tile_size * 2 ^ k → maxLevel size tile_size ≤ k)) := by
  have hld0 : levelDim 1024 256 0 = 256 := by
    unfold levelDim
    rw [maxLevel_1024_256]
    norm_num [ceilDiv]
  have hld1 : levelDim 1024 256 1 = 512 := by
    unfold levelDim
    rw [maxLevel_1024_256]
    norm_num [ceilDiv]
  have hld2 : levelDim 1024 256 2 = 1024 := by
    unfold levelDim
    rw [maxLevel_1024_256]
    norm_num [ceilDiv]
  refine ⟨?_, ⟨hld0, hld1, hld2⟩, ⟨?_, ?_, ?_⟩, ?_⟩
  · unfold numLevels
    rw [maxLevel_1024_256]
  · unfold tilesPerAxis
    rw [hld0]
    norm_num [ceilDiv]
  · unfold tilesPerAxis
    rw [hld1]
    norm_num [ceilDiv]
  · unfold tilesPerAxis
    rw [hld2]
    norm_num [ceilDiv]
  · intro size tile_size ht
    constructor
    · exact (ceilDiv_le_iff ht).mp
        (Nat.le_pow_clog (by norm_num) (ceilDiv size tile_size))
    · intro k hk
      exact (Nat.le_pow_iff_clog_le (by norm_num)).mp ((ceilDiv_le_iff ht).mpr hk)

theorem C5_pyramid_geometry_witness :
    1024 ≤ 256 * 2 ^ maxLevel 1024 256 ∧ maxLevel 1024 256 ≤ 2 := by
  have h := C5_pyramid_geometry.2.2.2 1024 256 (by norm_num)
  exact ⟨h.1, h.2 2 (by norm_num)⟩

/-! ### Exit codes of the comparator -/

/-- Claim C6, counterexample — a comparison run whose baseline file is
missing exits with code 0 (after a warning), not 1, although the baseline
is an input file that is missing. -/
theorem C6_counterexample :
    main_exit
      { current := some "cur.json", baseline := some "base.json",
        threshold := 10, save_baseline := none, output := none,
        description := "", markdown := false, ci := false }
      [("cur.json", FileContent.valid [])] = 0 ∧
    fileExists [("cur.json", FileContent.valid [])] "base.json" = false :=
  ⟨rfl, rfl⟩

/-- Claim C6, amended — the comparator exits 0 exactly on a successful
baseline save, a passing comparison, or a missing baseline file (the
"no baseline yet" warning path); every other run — P99 regression,
missing required argument, missing current-results or save-input file, or
a load failure — exits 1. -/
theorem C6_exit_codes (args : Args) (fs : List (String × FileContent)) :
    (main_exit args fs = 0 ∨ main_exit args fs = 1) ∧
    (main_exit args fs = 0 ↔
      ((∃ p o, args.save_baseline = some p ∧ args.output = some o ∧
          ∃ d, lookupFile fs p = FileContent.valid d) ∨
       (args.save_baseline = none ∧
         ∃ c b, args.current = some c ∧ args.baseline = some b ∧
           fileExists fs c = true ∧
           (fileExists fs b = false ∨
            ∃ cd bd, lookupFile fs c = FileContent.valid cd ∧
              lookupFile fs b = FileContent.valid bd ∧
              (compare_metrics (extract_metrics cd) (extract_metrics bd)
                args.threshold).1 = true)))) := by
  unfold main_exit
  rcases hsb : args.save_baseline with _ | p
  · rcases hc : args.current with _ | c
    · simp [hsb, hc]
    rcases hb : args.baseline with _ | b
    · simp [hsb, hc, hb]
    rcases hfc : lookupFile fs c with _ | rawc | cd
    · simp [hsb, hc, hb, fileExists, hfc]
    · rcases hfb : lookupFile fs b with _ | rawb | bd
      · simp [hsb, hc, hb, fileExists, hfc, hfb]
      · simp [hsb, hc, hb, fileExists, hfc, hfb, load_json]
      · simp [hsb, hc, hb, fileExists, hfc, hfb, load_json]
    · rcases hfb : lookupFile fs b with _ | rawb | bd
      · simp [hsb, hc, hb, fileExists, hfc, hfb]
      · simp [hsb, hc, hb, fileExists, hfc, hfb, load_json]
      · rcases hcmp : (compare_metrics (extract_metrics cd) (extract_metrics bd)
            args.threshold).1
        · simp [hsb, hc, hb, fileExists, hfc, hfb, load_json, hcmp]
        · simp [hsb, hc, hb, fileExists, hfc, hfb, load_json, hcmp]
  · rcases ho : args.output with _ | o
    · simp [hsb, ho]
    rcases hfp : lookupFile fs p with _ | raw | d
    · simp [hsb, ho, hfp, load_json]
    · simp [hsb, ho, hfp, load_json]
    · simp [hsb, ho, hfp, load_json]

theorem C6_exit_codes_witness :
    main_exit
      { current := none, baseline := none, threshold := 10,
        save_baseline := some "in.json", output := some "out.json",
        description := "", markdown := false, ci := false }
      [("in.json", FileContent.valid [])] = 0 :=
  (C6_exit_codes _ _).2.mpr
    (Or.inl ⟨"in.json", "out.json", rfl, rfl, [], rfl⟩)

/-! ### Malformed JSON handling -/

/-- Claim C7, counterexample — `load_json_safe` of the report generator
catches the JSON decode failure and returns `None`, indistinguishable
from a missing file: the report for a run directory whose
`tile_stress.json` is malformed is exactly the report for a directory
where the file is absent, so malformed JSON IS locally recovered there. -/
theorem C7_counterexample :
    load_json_safe (FileContent.malformed "not json") = none ∧
    generate_report "NOW" "run_1"
        { tile_stress := FileContent.malformed "not json",
          websocket_load := none, micro_benchmarks := none,
          server_metrics := FileContent.absent } =
      generate_report "NOW" "run_1"
        { tile_stress := FileContent.absent,
          websocket_load := none, micro_benchmarks := none,
          server_metrics := FileContent.absent } :=
  ⟨rfl, rfl⟩

/-- Claim C7, amended — in `compare_baseline.py` malformed JSON propagates
as an uncaught decode failure (`load_json` raises, and a comparison run on
a malformed current file exits 1), while in `generate_report.py`
`load_json_safe` catches `json.JSONDecodeError` and returns `None`,
treating malformed JSON like a missing file, non-fatally. -/
theorem C7_decode_failures :
    (∀ raw, load_json (FileContent.malformed raw) = LoadResult.err) ∧
    load_json FileContent.absent = LoadResult.err ∧
    (∀ raw, load_json_safe (FileContent.malformed raw) = none) ∧
    load_json_safe FileContent.absent = none ∧
    main_exit
      { current := some "cur.json", baseline := some "base.json",
        threshold := 10, save_baseline := none, output := none,
        description := "", markdown := false, ci := false }
      [("cur.json", FileContent.malformed "oops"),
       ("base.json", FileContent.valid [])] = 1 :=
  ⟨fun _ => rfl, rfl, fun _ => rfl, rfl, rfl⟩

/-! ### Report generation degrades gracefully -/

theorem mem_gr_header {a now dirName : String} {inp : ReportInputs}
    (h : a ∈ report_header now dirName) : a ∈ generate_report now dirName inp := by
  simp only [generate_report, List.mem_append]
  tauto

theorem mem_gr_summary {a now dirName : String} {inp : ReportInputs}
    (h : a ∈ summary_section inp) : a ∈ generate_report now dirName inp := by
  simp only [generate_report, List.mem_append]
  tauto

theorem mem_gr_http {a now dirName : String} {inp : ReportInputs}
    (h : a ∈ http_section inp) : a ∈ generate_report now dirName inp := by
  simp only [generate_report, List.mem_append]
  tauto

theorem mem_gr_ws {a now dirName : String} {inp : ReportInputs}
    (h : a ∈ ws_section inp) : a ∈ generate_report now dirName inp := by
  simp only [generate_report, List.mem_append]
  tauto

theorem mem_gr_micro {a now dirName : String} {inp : ReportInputs}
    (h : a ∈ micro_section inp) : a ∈ generate_report now dirName inp := by
  simp only [generate_report, List.mem_append]
  tauto

theorem mem_gr_server {a now dirName : String} {inp : ReportInputs}
    (h : a ∈ server_section inp) : a ∈ generate_report now dirName inp := by
  simp only [generate_report, List.mem_append]
  tauto

theorem mem_gr_footer {a now dirName : String} {inp : ReportInputs}
    (h : a ∈ report_footer) : a ∈ generate_report now dirName inp := by
  simp only [generate_report, List.mem_append]
  tauto

/-- Claim C8 — for every existing input directory the report generator
completes with a full markdown report: every section heading, the title
and the footer are always present; each of the four well-known input
files, when missing, contributes its placeholder "no data" line; and the
only fatal condition is a missing input directory (exit 1, exit 0
otherwise). -/
theorem C8_report_degrades (now dirName : String) (inp : ReportInputs) :
    ("# PathCollab Benchmark Report" ∈ generate_report now dirName inp) ∧
    ("## Summary" ∈ generate_report now dirName inp) ∧
    ("## HTTP Tile Performance" ∈ generate_report now dirName inp) ∧
    ("## WebSocket Performance" ∈ generate_report now dirName inp) ∧
    ("## Micro-benchmarks" ∈ generate_report now dirName inp) ∧
    ("## Server Metrics" ∈ generate_report now dirName inp) ∧
    ("*Report generated by `bench/scripts/generate_report.py`*" ∈
      generate_report now dirName inp) ∧
    (inp.tile_stress = FileContent.absent →
      "*No HTTP tile performance data available.*" ∈ generate_report now dirName inp) ∧
    (inp.websocket_load = none →
      "*No WebSocket performance data available.*" ∈ generate_report now dirName inp) ∧
    (inp.micro_benchmarks = none →
      "*No micro-benchmark data available.*" ∈ generate_report now dirName inp) ∧
    (inp.server_metrics = FileContent.absent →
      "*No server metrics available.*" ∈ generate_report now dirName inp) ∧
    (report_main true now dirName inp).1 = 0 ∧
    (report_main false now dirName inp).1 = 1 := by
  refine ⟨?_, ?_, ?_, ?_, ?_, ?_, ?_, ?_, ?_, ?_, ?_, rfl, rfl⟩
  · exact mem_gr_header (by simp [report_header])
  · exact mem_gr_summary (List.mem_cons_self _ _)
  · exact mem_gr_http (List.mem_cons_self _ _)
  · exact mem_gr_ws (List.mem_cons_self _ _)
  · exact mem_gr_micro (List.mem_cons_self _ _)
  · exact mem_gr_server (List.mem_cons_self _ _)
  · exact mem_gr_footer (by simp [report_footer])
  · intro h
    apply mem_gr_http
    simp only [http_section, h]
    decide
  · intro h
    apply mem_gr_ws
    simp only [ws_section, h]
    decide
  · intro h
    apply mem_gr_micro
    simp only [micro_section, h]
    decide
  · intro h
    apply mem_gr_server
    simp only [server_section, h]
    decide

theorem C8_report_degrades_witness :
    ("*No HTTP tile performance data available.*" ∈ generate_report "now" "dir"
      { tile_stress := FileContent.absent, websocket_load := none,
        micro_benchmarks := none, server_metrics := FileContent.absent }) ∧
    ("*No WebSocket performance data available.*" ∈ generate_report "now" "dir"
      { tile_stress := FileContent.absent, websocket_load := none,
        micro_benchmarks := none, server_metrics := FileContent.absent }) ∧
    ("*No micro-benchmark data available.*" ∈ generate_report "now" "dir"
      { tile_stress := FileContent.absent, websocket_load := none,
        micro_benchmarks := none, server_metrics := FileContent.absent }) ∧
    ("*No server metrics available.*" ∈ generate_report "now" "dir"
      { tile_stress := FileContent.absent, websocket_load := none,
        micro_benchmarks := none, server_metrics := FileContent.absent }) := by
  have h := C8_report_degrades "now" "dir"
    { tile_stress := FileContent.absent, websocket_load := none,
      micro_benchmarks := none, server_metrics := FileContent.absent }
  exact ⟨h.2.2.2.2.2.2.2.1 rfl, h.2.2.2.2.2.2.2.2.1 rfl,
    h.2.2.2.2.2.2.2.2.2.1 rfl, h.2.2.2.2.2.2.2.2.2.2.1 rfl⟩

/-! ### Determinism of fixture generation -/

/-- Claim C9 — fixture generation is deterministic: the outputs of
`generate_demo_slide` and `generate_demo_overlay` (XML descriptor, JSON
metadata/manifest, and every tile bitmap) are functions of
`(size, tile_size)` alone.  The embedded generators receive the ambient
environment (clock, randomness) but never consult it — the source imports
no randomness and writes no timestamp — so two runs under arbitrary
environments produce identical files. -/
theorem C9_deterministic (e1 e2 : Env) (size tile_size slide_size : ℕ) :
    generate_demo_slide e1 size tile_size = generate_demo_slide e2 size tile_size ∧
    generate_demo_overlay e1 slide_size tile_size =
      generate_demo_overlay e2 slide_size tile_size :=
  ⟨rfl, rfl⟩

/-! ### Union of keys and absent-metric defaults -/

/-- Claim C10 — `compare_metrics` iterates over the sorted union of the
two key sets, a metric absent on one side defaulting to value 0 there: a
latency metric present only in the baseline (with nonzero value, under a
non-negative threshold) is reported as `-100.0%` and classified IMPROVED
and never fails the run, while a latency metric present only in the
current results (with nonzero value) has infinite change and is
classified REGRESSED, failing the run when it is `p99_ms`. -/
theorem C10_union_defaults (current baseline : MetricDict) (threshold : ℚ) :
    ((compare_metrics current baseline threshold).2.map MetricRow.name =
      sortedUnionKeys current baseline) ∧
    (∀ metric, metric ∈ sortedUnionKeys current baseline ↔
      metric ∈ current.map Prod.fst ∨ metric ∈ baseline.map Prod.fst) ∧
    (∀ metric b, List.lookup metric current = none →
      List.lookup metric baseline = some b → b ≠ 0 →
      lower_is_better.contains metric = true → 0 ≤ threshold →
      (compareRow current baseline threshold metric).change_str = "-100.0%" ∧
      (compareRow current baseline threshold metric).status = Status.improved ∧
      metric ∈ sortedUnionKeys current baseline) ∧
    (∀ metric c, List.lookup metric baseline = none →
      List.lookup metric current = some c → c ≠ 0 →
      lower_is_better.contains metric = true →
      (compareRow current baseline threshold metric).change = ChangePct.inf ∧
      (compareRow current baseline threshold metric).status = Status.regressed ∧
      (metric = "p99_ms" →
        (compare_metrics current baseline threshold).1 = false)) := by
  refine ⟨?_, fun m => mem_sortedUnionKeys m current baseline, ?_, ?_⟩
  · show ((sortedUnionKeys current baseline).map
      (compareRow current baseline threshold)).map MetricRow.name = _
    rw [List.map_map]
    simp [Function.comp_def, compareRow]
  · rintro metric b hcur hbase hb hlow ht
    have hc0 : dictGetD current metric 0 = 0 := dictGetD_of_lookup_none hcur
    have hbv : dictGetD baseline metric 0 = b := dictGetD_of_lookup_some hbase
    have hch : changePct (dictGetD current metric 0) (dictGetD baseline metric 0) =
        ChangePct.fin (-100) := by
      rw [hc0, hbv]
      unfold changePct
      rw [if_neg hb]
      congr 1
      field_simp
    have hreg : isRegression metric (ChangePct.fin (-100)) threshold = false := by
      unfold isRegression
      rw [hlow]
      simp only [if_true, cGt, decide_eq_false_iff_not, not_lt]
      linarith
    refine ⟨?_, ?_, (mem_sortedUnionKeys metric current baseline).mpr
      (Or.inr (lookup_some_mem_keys hbase))⟩
    · show render_change (changePct (dictGetD current metric 0)
        (dictGetD baseline metric 0)) = "-100.0%"
      rw [hch]
      have hr : roundHalfEven ((-100 : ℚ) * (10 : ℚ) ^ (1 : ℕ)) = -1000 := by
        norm_num [roundHalfEven]
      simp only [render_change, fmtQ, hr]
      norm_num
      rfl
    · show statusOf metric (changePct (dictGetD current metric 0)
        (dictGetD baseline metric 0)) threshold = Status.improved
      rw [hch]
      have habs : cAbsLt5 (ChangePct.fin (-100)) = false := by
        simp only [cAbsLt5, decide_eq_false_iff_not, not_lt]
        norm_num
      have hneg : cNeg (ChangePct.fin (-100)) = true := by
        simp only [cNeg, decide_eq_true_eq]
        norm_num
      have hmem : metric ∈ lower_is_better := by simpa using hlow
      simp [statusOf, hreg, habs, hneg, hlow, hmem]
  · rintro metric c hbase hcur hc hlow
    have hcv : dictGetD current metric 0 = c := dictGetD_of_lookup_some hcur
    have hb0 : dictGetD baseline metric 0 = 0 := dictGetD_of_lookup_none hbase
    have hch : changePct (dictGetD current metric 0) (dictGetD baseline metric 0) =
        ChangePct.inf := by
      rw [hcv, hb0]
      unfold changePct
      rw [if_pos rfl, if_neg hc]
    have hreg : isRegression metric ChangePct.inf threshold = true := by
      unfold isRegression
      rw [hlow]
      simp [cGt]
    refine ⟨hch, ?_, ?_⟩
    · show statusOf metric (changePct (dictGetD current metric 0)
        (dictGetD baseline metric 0)) threshold = Status.regressed
      rw [hch]
      simp [statusOf, hreg]
    · intro hm
      subst hm
      apply (compare_passed_iff current baseline threshold).mpr
      refine ⟨(mem_sortedUnionKeys _ current baseline).mpr
        (Or.inl (lookup_some_mem_keys hcur)), ?_⟩
      rw [hch]
      rfl

theorem C10_union_defaults_witness :
    ((compareRow [] [("p50_ms", 50)] 10 "p50_ms").change_str = "-100.0%" ∧
     (compareRow [] [("p50_ms", 50)] 10 "p50_ms").status = Status.improved) ∧
    ((compareRow [("p99_ms", 7)] [] 10 "p99_ms").change = ChangePct.inf ∧
     (compareRow [("p99_ms", 7)] [] 10 "p99_ms").status = Status.regressed ∧
     (compare_metrics [("p99_ms", 7)] [] 10).1 = false) := by
  have h3 := (C10_union_defaults [] [("p50_ms", 50)] 10).2.2.1 "p50_ms" 50
    rfl rfl (by norm_num) rfl (by norm_num)
  have h4 := (C10_union_defaults [("p99_ms", 7)] [] 10).2.2.2 "p99_ms" 7
    rfl rfl (by norm_num) rfl
  exact ⟨⟨h3.1, h3.2.1⟩, ⟨h4.1, h4.2.1, h4.2.2 rfl⟩⟩

end PathCollab
